import Mathlib

/-!
# Verification of the node-powerschool request builder

A shallow embedding of `src/PowerSchool.ts` (the `PowerSchool` fluent
request builder) and `src/PowerSchoolResponse.ts`.  JavaScript strings are
modelled as Lean `String`/`List Char`, JavaScript objects as insertion
lists of key/value pairs, `undefined`/absent fields as `Option`, and the
two asynchronous network calls (`client.post` in `retrieveToken`,
`client.request` in `send`) as explicit transport-result parameters: the
value the awaited promise resolves to on success, or the error it rejects
with.  Each definition follows the corresponding TypeScript function
line by line.
-/

namespace NodePowerSchool

/-! ## JavaScript string primitives used by the source -/

/-- One step of `String.prototype.replace(/\/{2,}/g, '/')`: every maximal
run of two or more `'/'` characters collapses to a single `'/'`.
Collapsing a run is the same as repeatedly deleting the first of two
adjacent slashes, which is what this structural recursion does. -/
def collapseSlashes : List Char → List Char
  | [] => []
  | [c] => [c]
  | a :: b :: rest =>
    if a = '/' ∧ b = '/' then collapseSlashes (b :: rest)
    else a :: collapseSlashes (b :: rest)

/-- `endsWith('/')` followed by `slice(0, -1)`: drop one trailing slash. -/
def stripTrailing (l : List Char) : List Char :=
  if l.getLast? = some '/' then l.dropLast else l

/-- `PowerSchool.sanitizeEndpoint` (PowerSchool.ts:687-695): collapse runs
of slashes, then strip one trailing slash. -/
def sanitizeEndpoint (e : String) : String :=
  String.mk (stripTrailing (collapseSlashes e.data))

/-- `String.prototype.split('/')`: the (nonempty) list of segments between
slashes; `''.split('/')` is `['']`. -/
def splitSlash : List Char → List (List Char)
  | [] => [[]]
  | c :: rest =>
    if c = '/' then [] :: splitSlash rest
    else
      match splitSlash rest with
      | s :: ss => (c :: s) :: ss
      | [] => [[c]]

/-- Substring test, modelling `String.prototype.includes`. -/
def containsSub (hay needle : List Char) : Bool :=
  hay.tails.any (fun t => needle.isPrefixOf t)

/-- ASCII lowercasing of one character (`String.prototype.toLowerCase`
restricted to the ASCII method names the source stores). -/
def jsCharLower (c : Char) : Char :=
  if 65 ≤ c.toNat ∧ c.toNat ≤ 90 then Char.ofNat (c.toNat + 32) else c

/-- `String.prototype.toLowerCase` over ASCII strings. -/
def jsToLower (s : String) : String :=
  String.mk (s.data.map jsCharLower)

/-- The whitespace that `Number()` ignores around its argument. -/
def jsWhitespace (c : Char) : Bool :=
  c = ' ' ∨ c = '\t' ∨ c = '\n' ∨ c = '\r'

/-- Digits-only decimal parse; `none` on an empty or non-digit list. -/
def parseDigits (l : List Char) : Option Nat :=
  if l.isEmpty then none
  else l.foldl (fun acc c =>
    acc.bind (fun n => if c.isDigit then some (10 * n + (c.toNat - 48)) else none))
    (some 0)

/-- The `Number(string)` conversion, on the fragment of inputs the builder
actually feeds it (path segments): surrounding whitespace is ignored, the
empty/blank string converts to `0`, an optionally signed run of decimal
digits converts to that integer, and everything else is `NaN`, modelled
as `none`.  (Float, hex and exponent syntax never reach this conversion
in the source and are modelled as `NaN`.) -/
def jsNumber (s : String) : Option Int :=
  let t := ((s.data.dropWhile jsWhitespace).reverse.dropWhile jsWhitespace).reverse
  match t with
  | [] => some 0
  | '-' :: ds => (parseDigits ds).map (fun n => -(n : Int))
  | '+' :: ds => (parseDigits ds).map (fun n => (n : Int))
  | ds => (parseDigits ds).map (fun n => (n : Int))

/-- JavaScript array indexing `l[i]`: `undefined` (`none`) when out of
range or negative. -/
def jsIndex (l : List String) (i : Int) : Option String :=
  if i < 0 then none else l[i.toNat]?

/-- Truthiness of the numeric `requestConfig.id` field (`undefined` and
`0` are falsy, every other number the field can hold is truthy). -/
def idTruthy : Option Int → Bool
  | none => false
  | some n => n ≠ 0

/-! ## JavaScript values and objects -/

/-- The domain of values the builder stores in its `data`/`params`
objects: strings, (integer) numbers, booleans, `null`, `undefined`,
arrays, and nested plain objects. -/
inductive JsValue where
  | vStr (s : String)
  | vNum (n : Int)
  | vBool (b : Bool)
  | vNull
  | vUndef
  | vArr (elems : List JsValue)
  | vObj (fields : List (String × JsValue))
  deriving Repr

/-- A JavaScript object, as its insertion list of key/value pairs. -/
abbrev Obj := List (String × JsValue)

/-- First-match lookup of a key (JS property access on our object model). -/
def lookupKey {α : Type} : List (String × α) → String → Option α
  | [], _ => none
  | (k', v) :: rest, k => if k' = k then some v else lookupKey rest k

/-- JS object spread `{...a, ...b}`, modelled at the key→value level:
keys of `b` win over equal keys of `a`.  (The insertion order of
surviving keys is abstracted; every lookup agrees with JS.) -/
def spreadObj (a b : Obj) : Obj :=
  a.filter (fun p => (lookupKey b p.1).isNone) ++ b

mutual

/-- `String(value)` on the modelled value domain. -/
def jsToString : JsValue → String
  | .vStr s => s
  | .vNum n => toString n
  | .vBool b => if b then "true" else "false"
  | .vNull => "null"
  | .vUndef => "undefined"
  | .vArr l => joinComma l
  | .vObj _ => "[object Object]"

/-- `Array.prototype.join(',')`. -/
def joinComma : List JsValue → String
  | [] => ""
  | [v] => joinElem v
  | v :: rest => joinElem v ++ "," ++ joinComma rest

/-- How `join` renders one element: `null`/`undefined` become empty,
everything else its `String()` form. -/
def joinElem : JsValue → String
  | .vNull => ""
  | .vUndef => ""
  | v => jsToString v

end

/-- `PowerSchool.castValueToString` (PowerSchool.ts:721-735). -/
def castValueToString : JsValue → String
  | .vBool b => if b then "1" else "0"
  | .vNull => ""
  | .vUndef => ""
  | .vArr l => joinComma l
  | v => jsToString v

/-- Restatement of the spec's value-normalization sentence, written from
its words alone: boolean to `"1"`/`"0"`, null/undefined to the empty
string, an array to the comma-joined string of its elements, everything
else to its string representation. -/
def specCastValueToString : JsValue → String
  | .vBool true => "1"
  | .vBool false => "0"
  | .vNull => ""
  | .vUndef => ""
  | .vArr l => joinComma l
  | v => jsToString v

end NodePowerSchool

namespace NodePowerSchool

/-! ## The builder state (`PowerSchoolRequestConfig`, `PowerSchool`) -/

/-- `PowerSchoolRequestConfig` (PowerSchool.ts:5-14).  Fields without a
TypeScript initializer start out `undefined`, modelled as `none`. -/
structure PowerSchoolRequestConfig where
  endpoint : Option String := none
  method : String := "get"
  table : Option String := none
  data : Obj := []
  params : Obj := []
  id : Option Int := none
  includeProjection : Bool := false
  pageKey : Option String := none
  deriving Repr

/-- The `PowerSchool` builder fields (PowerSchool.ts:16-31).  The axios
instance itself carries no state we model beyond the base url. -/
structure PowerSchool where
  url : String
  clientId : String
  clientSecret : String
  token : Option String := none
  requestConfig : PowerSchoolRequestConfig := {}
  deriving Repr

/-- The constructor (PowerSchool.ts:24-31). -/
def PowerSchool.create (url clientId clientSecret : String) : PowerSchool :=
  { url := url, clientId := clientId, clientSecret := clientSecret }

/-- `setConfig` with its default argument (PowerSchool.ts:33-37). -/
def PowerSchool.setConfig (s : PowerSchool)
    (config : PowerSchoolRequestConfig := {}) : PowerSchool :=
  { s with requestConfig := config }

/-- `tokenSet` (PowerSchool.ts:39-41): `!!this.token`; `undefined` and the
empty string are falsy. -/
def PowerSchool.tokenSet (s : PowerSchool) : Bool :=
  match s.token with
  | none => false
  | some t => !t.data.isEmpty

/-- `setToken` (PowerSchool.ts:43-47). -/
def PowerSchool.setToken (s : PowerSchool) (token : String) : PowerSchool :=
  { s with token := some token }

/-- `excludeProjection` (PowerSchool.ts:140-144). -/
def PowerSchool.excludeProjection (s : PowerSchool) : PowerSchool :=
  { s with requestConfig := { s.requestConfig with includeProjection := false } }

/-- `includeProjection` (PowerSchool.ts:153-157). -/
def PowerSchool.includeProjection (s : PowerSchool) : PowerSchool :=
  { s with requestConfig := { s.requestConfig with includeProjection := true } }

/-- `setEndpoint` (PowerSchool.ts:165-183).  Stores the sanitized path,
splits the *raw* path on the slash character, pops the trailing segment,
records it as the numeric id when `Number(tail)` is not `NaN`, and on
table paths derives `table` as `parts[parts.length - 2]` (indexing after
the pop) when the id is truthy, or the popped tail otherwise. -/
def PowerSchool.setEndpoint (s : PowerSchool) (endpoint : String) : PowerSchool :=
  let sanitized := sanitizeEndpoint endpoint
  let segs := splitSlash endpoint.data
  let tail : String := String.mk (segs.getLast?.getD [])
  let parts : List String := segs.dropLast.map String.mk
  let newId : Option Int :=
    match jsNumber tail with
    | some n => some n
    | none => s.requestConfig.id
  let cfg := { s.requestConfig with endpoint := some sanitized, id := newId }
  if containsSub sanitized.data "/table/".data then
    let tbl : Option String :=
      if idTruthy newId then jsIndex parts ((parts.length : Int) - 2) else some tail
    { s with requestConfig := { cfg with table := tbl, includeProjection := true } }
  else
    { s with requestConfig := { cfg with includeProjection := false } }

/-- `setId` (PowerSchool.ts:114-118): record the id, then re-run
`setEndpoint` on the template literal appending `/` and the id to the
possibly-`undefined` current endpoint. -/
def PowerSchool.setId (s : PowerSchool) (id : Int) : PowerSchool :=
  let s1 : PowerSchool :=
    { s with requestConfig := { s.requestConfig with id := some id } }
  s1.setEndpoint ((s.requestConfig.endpoint.getD "undefined") ++ "/" ++ toString id)

/-- `setTable` (PowerSchool.ts:77-85). -/
def PowerSchool.setTable (s : PowerSchool) (table : String) : PowerSchool :=
  let endpoint := if "/ws/schema/table".data.isPrefixOf table.data
    then table else "/ws/schema/table/" ++ table
  let s1 : PowerSchool :=
    { s with requestConfig := { s.requestConfig with pageKey := some "record" } }
  (s1.setEndpoint endpoint).includeProjection

/-- `setData` (PowerSchool.ts:214-218). -/
def PowerSchool.setData (s : PowerSchool) (data : Obj) : PowerSchool :=
  { s with requestConfig := { s.requestConfig with data := data } }

/-- `addQueryParam` (PowerSchool.ts:262-266): the property assignment
`params[key] = value`; lookups on the result see `value` at `key`. -/
def PowerSchool.addQueryParam (s : PowerSchool) (key : String) (value : JsValue) :
    PowerSchool :=
  { s with requestConfig :=
    { s.requestConfig with params := spreadObj s.requestConfig.params [(key, value)] } }

/-- `setMethod` (PowerSchool.ts:287-291). -/
def PowerSchool.setMethod (s : PowerSchool) (method : String) : PowerSchool :=
  { s with requestConfig := { s.requestConfig with method := method } }

/-- `setNamedQuery` (PowerSchool.ts:308-320): prefix the name with the
named-query root unless it already starts with `/ws/schema/query`,
collapse duplicate slashes, run `setEndpoint`, set the page key, set the
body when a non-empty one was supplied, and force the method to POST. -/
def PowerSchool.setNamedQuery (s : PowerSchool) (name : String) (data : Obj := []) :
    PowerSchool :=
  let endpoint := if "/ws/schema/query".data.isPrefixOf name.data
    then name else "/ws/schema/query/" ++ name
  let s1 := s.setEndpoint (String.mk (collapseSlashes endpoint.data))
  let s2 : PowerSchool :=
    { s1 with requestConfig := { s1.requestConfig with pageKey := some "record" } }
  let s3 := if data.isEmpty then s2 else s2.setData data
  s3.setMethod "post"

/-! ## Request assembly and the two network operations -/

/-- An axios error or rejected promise, abstracted to its message. -/
abbrev TransportError := String

/-- The body of the token-endpoint response: a JSON object whose
`access_token` field may be absent. -/
structure TokenResponseBody where
  access_token : Option String
  deriving Repr

/-- `retrieveToken` (PowerSchool.ts:49-65).  `exchange` is the outcome of
the awaited `client.post` to `/oauth/access_token`: `.error` when the
promise rejects (the exception propagates and no state changes), `.ok`
with the parsed body when it resolves, after which `setToken` stores
`res.data.access_token` — possibly `undefined` (`none`). -/
def PowerSchool.retrieveToken (s : PowerSchool) (force : Bool)
    (exchange : Except TransportError TokenResponseBody) :
    Except TransportError PowerSchool :=
  if s.tokenSet && !force then .ok s
  else
    match exchange with
    | .error e => .error e
    | .ok body => .ok { s with token := body.access_token }

/-- `buildParams` (PowerSchool.ts:679-685): spread the projection default,
then (for GET) the body object, then the explicit query params. -/
def PowerSchool.buildParams (s : PowerSchool) : Obj :=
  let proj : Obj :=
    if s.requestConfig.includeProjection then [("projection", JsValue.vStr "*")] else []
  let dataPart : Obj :=
    if jsToLower s.requestConfig.method = "get" then s.requestConfig.data else []
  spreadObj (spreadObj proj dataPart) s.requestConfig.params

/-- The axios request descriptor assembled by `getAxiosRequestConfig`. -/
structure AxiosRequestConfig where
  url : String
  method : String
  headers : List (String × String)
  params : Obj
  data : Obj
  deriving Repr

/-- `getAxiosRequestConfig` (PowerSchool.ts:660-672).  Returns `none` when
no endpoint was ever set: the source would then call
`sanitizeEndpoint(undefined)` and throw a `TypeError`.  Note the
Authorization header is the template literal `Bearer: ${this.token}`,
colon included, rendering `undefined` when no token is held. -/
def PowerSchool.getAxiosRequestConfig (s : PowerSchool) : Option AxiosRequestConfig :=
  match s.requestConfig.endpoint with
  | none => none
  | some e => some
    { url := sanitizeEndpoint e
      method := s.requestConfig.method
      headers :=
        [("Authorization", "Bearer: " ++ (s.token.getD "undefined")),
         ("Accept", "application/json"),
         ("Content-Type", "application/json")]
      params := s.buildParams
      data := s.requestConfig.data }

/-- `PowerSchoolResponse` (PowerSchoolResponse.ts): wraps the raw body. -/
structure PowerSchoolResponse where
  rawData : JsValue
  deriving Repr

/-- Everything observable about one `send()` (PowerSchool.ts:648-652):
the builder state afterwards, the descriptor handed to `client.request`,
and the outcome (the wrapped body, or the transport error propagating).
The source mutates nothing in `send`, so the post-send state is the
pre-send state; `none` models the `TypeError` thrown while assembling a
descriptor with no endpoint set. -/
structure SendOutcome where
  state : PowerSchool
  dispatched : AxiosRequestConfig
  result : Except TransportError PowerSchoolResponse
  deriving Repr

/-- `send` (PowerSchool.ts:648-652), with the transport answer for the
dispatched request supplied as the `transport` argument. -/
def PowerSchool.send (s : PowerSchool)
    (transport : Except TransportError JsValue) : Option SendOutcome :=
  s.getAxiosRequestConfig.map (fun cfg =>
    { state := s
      dispatched := cfg
      result := transport.map (fun d => { rawData := d }) })

/-! ## Concrete builder states used by witnesses and counterexamples -/

/-- No two adjacent slashes anywhere in the character list. -/
def noDouble : List Char → Bool
  | [] => true
  | [_] => true
  | a :: b :: rest => !(a == '/' && b == '/') && noDouble (b :: rest)

/-- A concrete builder used to instantiate the C3 theorem. -/
def clientC3 : PowerSchool :=
  ((PowerSchool.create "https://ps.example.com" "cid" "csec").setTable
    "u_custom_table").addQueryParam "param3" (JsValue.vStr "three")

/-- A client with a token, used for the C4 header evaluation. -/
def clientC4 : PowerSchool :=
  ((PowerSchool.create "https://ps.example.com" "cid" "csec").setToken
    "abc").setEndpoint "/ws/v1/district"

/-- The C5 failing input: a table path carrying a trailing numeric ID. -/
def clientC5 : PowerSchool :=
  (PowerSchool.create "https://ps.example.com" "cid" "csec").setEndpoint
    "/ws/schema/table/u_custom_table/1"

/-- A configured client (non-default method and endpoint, no token). -/
def clientC1 : PowerSchool :=
  ((PowerSchool.create "https://ps.example.com" "cid" "csec").setEndpoint
    "/ws/v1/student").setMethod "post"

/-- The send outcome produced from `clientC1`. -/
def outcomeC1 : SendOutcome :=
  (clientC1.send (.ok .vNull)).get (by rfl)

/-- A configured client holding no token, for C2. -/
def clientC2 : PowerSchool :=
  (PowerSchool.create "https://ps.example.com" "cid" "csec").setEndpoint
    "/ws/v1/school"

/-- The send outcome produced from `clientC2`. -/
def outcomeC2 : SendOutcome :=
  (clientC2.send (.ok .vNull)).get (by rfl)

/-- A fresh client holding no token, for C7. -/
def clientC7 : PowerSchool :=
  PowerSchool.create "https://ps.example.com" "cid" "csec"

/-- A fresh client for the C8 example runs. -/
def clientC8 : PowerSchool :=
  PowerSchool.create "https://ps.example.com" "cid" "csec"

/-- A fresh client for the C10 witness. -/
def clientC10 : PowerSchool :=
  PowerSchool.create "https://ps.example.com" "cid" "csec"

/-! ## Lookup lemmas for the object model -/

theorem lookupKey_append {α : Type} (a b : List (String × α)) (k : String) :
    lookupKey (a ++ b) k = (lookupKey a k).orElse (fun _ => lookupKey b k) := by
  induction a with
  | nil => simp [lookupKey, Option.orElse]
  | cons p rest ih =>
    obtain ⟨k1, v⟩ := p
    by_cases h : k1 = k
    · simp [lookupKey, h, Option.orElse]
    · simp [lookupKey, h, ih]

theorem lookupKey_filter_dropped (a b : Obj) (k : String) :
    lookupKey (a.filter (fun p => (lookupKey b p.1).isNone)) k =
      if (lookupKey b k).isSome then none else lookupKey a k := by
  induction a with
  | nil => simp [lookupKey]
  | cons p rest ih =>
    obtain ⟨k1, v⟩ := p
    by_cases h : k1 = k
    · subst h
      cases hb : lookupKey b k1 with
      | none => simp [List.filter, lookupKey, hb]
      | some w => simp [List.filter, lookupKey, hb, ih]
    · cases hb : lookupKey b k1 with
      | none => simp [List.filter, lookupKey, hb, h, ih]
      | some w => simp [List.filter, lookupKey, hb, h, ih]

/-- Lookup through a JS spread: keys of `b` shadow keys of `a`. -/
theorem lookupKey_spreadObj (a b : Obj) (k : String) :
    lookupKey (spreadObj a b) k = (lookupKey b k).orElse (fun _ => lookupKey a k) := by
  unfold spreadObj
  rw [lookupKey_append, lookupKey_filter_dropped]
  cases hb : lookupKey b k with
  | none => simp [Option.orElse]; cases lookupKey a k <;> rfl
  | some w => simp [Option.orElse]

/-! ## C3: buildParams merge order -/

theorem lookupKey_ite_data (c : Prop) [Decidable c] (d : Obj) (k : String) :
    lookupKey (if c then d else []) k = if c then lookupKey d k else none := by
  by_cases hc : c <;> simp [hc, lookupKey]

theorem lookupKey_proj_default (c : Prop) [Decidable c] (k : String) :
    (if c then lookupKey [("projection", JsValue.vStr "*")] k else none)
      = if c ∧ k = "projection" then some (JsValue.vStr "*") else none := by
  by_cases hc : c
  · by_cases hk : k = "projection"
    · subst hk
      simp [lookupKey, hc]
    · have hk2 : ¬("projection" = k) := fun h => hk h.symm
      simp [lookupKey, hc, hk, hk2]
  · simp [hc]

/-- C3: for every builder state, `buildParams()` is the merge that starts
from the `projection: *` default (when the projection flag is on), then
(for GET methods only) layers the body mapping over it, then layers the
explicit query-params mapping over both, later stages winning on equal
keys; consequently an explicitly set query parameter is never lost. -/
theorem c3_buildParams_merge_order (s : PowerSchool) (k : String) :
    (lookupKey s.buildParams k =
      ((lookupKey s.requestConfig.params k).orElse (fun _ =>
        ((if jsToLower s.requestConfig.method = "get"
            then lookupKey s.requestConfig.data k else none).orElse (fun _ =>
          if s.requestConfig.includeProjection ∧ k = "projection"
            then some (JsValue.vStr "*") else none)))))
    ∧ (∀ v, lookupKey s.requestConfig.params k = some v →
        lookupKey s.buildParams k = some v) := by
  have hmain : lookupKey s.buildParams k =
      ((lookupKey s.requestConfig.params k).orElse (fun _ =>
        ((if jsToLower s.requestConfig.method = "get"
            then lookupKey s.requestConfig.data k else none).orElse (fun _ =>
          if s.requestConfig.includeProjection ∧ k = "projection"
            then some (JsValue.vStr "*") else none)))) := by
    simp only [PowerSchool.buildParams]
    simp only [lookupKey_spreadObj, lookupKey_ite_data]
    simp only [lookupKey_proj_default]
  refine ⟨hmain, fun v hv => ?_⟩
  rw [hmain, hv]
  rfl

/-- Witness for C3 at a concrete state: `param3` was explicitly set and
survives into the built parameters. -/
theorem c3_witness :
    lookupKey clientC3.requestConfig.params "param3" = some (JsValue.vStr "three")
    ∧ lookupKey clientC3.buildParams "param3" = some (JsValue.vStr "three") :=
  ⟨rfl, (c3_buildParams_merge_order clientC3 "param3").2 (JsValue.vStr "three") rfl⟩

/-! ## C6: sanitizeEndpoint is idempotent -/

theorem collapseSlashes_cons (b : Char) (rest : List Char) :
    ∃ t, collapseSlashes (b :: rest) = b :: t := by
  induction rest generalizing b with
  | nil => exact ⟨[], rfl⟩
  | cons c rs ih =>
    by_cases h : b = '/' ∧ c = '/'
    · obtain ⟨t, ht⟩ := ih c
      refine ⟨t, ?_⟩
      rw [collapseSlashes, if_pos h, ht, h.1, h.2]
    · exact ⟨collapseSlashes (c :: rs), by rw [collapseSlashes, if_neg h]⟩

theorem noDouble_collapseSlashes (l : List Char) : noDouble (collapseSlashes l) = true := by
  induction l using collapseSlashes.induct with
  | case1 => rfl
  | case2 c => rfl
  | case3 a b rest h ih =>
    rw [collapseSlashes, if_pos h]
    exact ih
  | case4 a b rest h ih =>
    rw [collapseSlashes, if_neg h]
    obtain ⟨t, ht⟩ := collapseSlashes_cons b rest
    rw [ht]
    rw [ht] at ih
    have hab : (a == '/' && b == '/') = false := by
      by_cases ha : a = '/'
      · by_cases hb : b = '/'
        · exact absurd ⟨ha, hb⟩ h
        · simp [hb]
      · simp [ha]
    simp [noDouble, hab, ih]

theorem collapseSlashes_of_noDouble (l : List Char) (h : noDouble l = true) :
    collapseSlashes l = l := by
  induction l using collapseSlashes.induct with
  | case1 => rfl
  | case2 c => rfl
  | case3 a b rest hab ih =>
    exfalso
    rw [noDouble] at h
    have : (a == '/' && b == '/') = true := by simp [hab.1, hab.2]
    simp [this] at h
  | case4 a b rest hab ih =>
    rw [noDouble, Bool.and_eq_true] at h
    rw [collapseSlashes, if_neg hab, ih h.2]

theorem collapseSlashes_idem (l : List Char) :
    collapseSlashes (collapseSlashes l) = collapseSlashes l :=
  collapseSlashes_of_noDouble _ (noDouble_collapseSlashes l)

theorem noDouble_dropLast (l : List Char) (h : noDouble l = true) :
    noDouble l.dropLast = true := by
  induction l with
  | nil => rfl
  | cons a rest ih =>
    cases rest with
    | nil => rfl
    | cons b rs =>
      rw [noDouble, Bool.and_eq_true] at h
      have hd : noDouble (b :: rs).dropLast = true := ih h.2
      cases rs with
      | nil => rfl
      | cons c rs2 =>
        rw [List.dropLast_cons₂, List.dropLast_cons₂]
        rw [List.dropLast_cons₂] at hd
        simp [noDouble, h.1, hd]

theorem eq_dropLast_append {l : List Char} {c : Char} (h : l.getLast? = some c) :
    l = l.dropLast ++ [c] := by
  induction l with
  | nil => simp at h
  | cons a rest ih =>
    cases rest with
    | nil =>
      simp at h
      simp [h]
    | cons b rs =>
      rw [List.getLast?_cons_cons] at h
      rw [List.dropLast_cons₂, List.cons_append]
      exact congrArg (a :: ·) (ih h)

theorem noDouble_append_pair (y : List Char) :
    noDouble (y ++ ['/', '/']) = false := by
  induction y with
  | nil => rfl
  | cons a ys ih =>
    cases ys with
    | nil => simp [noDouble]
    | cons b ys2 =>
      rw [List.cons_append, List.cons_append, noDouble]
      rw [List.cons_append] at ih
      simp [ih]

theorem stripTrailing_no_trailing (l : List Char) (h : noDouble l = true) :
    (stripTrailing l).getLast? ≠ some '/' := by
  unfold stripTrailing
  by_cases hl : l.getLast? = some '/'
  · rw [if_pos hl]
    intro hd
    have h1 : l = l.dropLast ++ ['/'] := eq_dropLast_append hl
    have h2 : l.dropLast = l.dropLast.dropLast ++ ['/'] := eq_dropLast_append hd
    have h3 : l = l.dropLast.dropLast ++ ['/', '/'] := by
      rw [h1, h2]
      simp
    rw [h3, noDouble_append_pair] at h
    exact absurd h (by simp)
  · rw [if_neg hl]
    exact hl

theorem stripTrailing_of_no_trailing (l : List Char) (h : l.getLast? ≠ some '/') :
    stripTrailing l = l := by
  unfold stripTrailing
  rw [if_neg h]

theorem noDouble_stripTrailing (l : List Char) (h : noDouble l = true) :
    noDouble (stripTrailing l) = true := by
  unfold stripTrailing
  by_cases hl : l.getLast? = some '/'
  · rw [if_pos hl]
    exact noDouble_dropLast l h
  · rw [if_neg hl]
    exact h

/-- C6: endpoint normalization (collapse runs of slashes, strip one
trailing slash) is idempotent: sanitizing twice is the same as
sanitizing once, for every endpoint string. -/
theorem c6_sanitizeEndpoint_idempotent (e : String) :
    sanitizeEndpoint (sanitizeEndpoint e) = sanitizeEndpoint e := by
  unfold sanitizeEndpoint
  have hdata : (String.mk (stripTrailing (collapseSlashes e.data))).data
      = stripTrailing (collapseSlashes e.data) := rfl
  rw [hdata]
  have h1 : noDouble (collapseSlashes e.data) = true := noDouble_collapseSlashes e.data
  have h2 : noDouble (stripTrailing (collapseSlashes e.data)) = true :=
    noDouble_stripTrailing _ h1
  rw [collapseSlashes_of_noDouble _ h2]
  rw [stripTrailing_of_no_trailing _ (stripTrailing_no_trailing _ h1)]

/-! ## C9: castValueToString -/

/-- C9: value normalization behaves as specified: `true` to `"1"`,
`false` to `"0"`, null/undefined to the empty string, an array to the
comma-joined string of its elements (`[1,2]` to `"1,2"`), everything
else to its string representation — stated as agreement between the
source function and a restatement written from the spec sentence. -/
theorem c9_castValueToString_spec :
    (∀ v, castValueToString v = specCastValueToString v)
    ∧ castValueToString (JsValue.vBool true) = "1"
    ∧ castValueToString (JsValue.vBool false) = "0"
    ∧ castValueToString JsValue.vNull = ""
    ∧ castValueToString JsValue.vUndef = ""
    ∧ castValueToString (JsValue.vArr [JsValue.vNum 1, JsValue.vNum 2]) = "1,2" := by
  refine ⟨?_, rfl, rfl, rfl, rfl, ?_⟩
  · intro v
    cases v with
    | vBool b => cases b <;> rfl
    | vStr s => rfl
    | vNum n => rfl
    | vNull => rfl
    | vUndef => rfl
    | vArr l => rfl
    | vObj f => rfl
  · simp [castValueToString, joinComma, joinElem, jsToString]
    rfl

/-! ## C4 and C5: concrete divergences in the assembled request -/

/-- C4: evaluating the code at the failing input: with stored token
`abc`, the Authorization header produced by `getAxiosRequestConfig` is
the string `Bearer: abc` — colon included — which differs from the OAuth
Bearer form `Bearer abc` the claim states; the Accept and Content-Type
headers do match the claim. -/
theorem c4_bearer_header_divergence :
    clientC4.getAxiosRequestConfig.map (fun c => lookupKey c.headers "Authorization")
      = some (some "Bearer: abc")
    ∧ clientC4.getAxiosRequestConfig.map (fun c => lookupKey c.headers "Accept")
      = some (some "application/json")
    ∧ clientC4.getAxiosRequestConfig.map (fun c => lookupKey c.headers "Content-Type")
      = some (some "application/json")
    ∧ ("Bearer: abc" : String) ≠ "Bearer " ++ "abc" :=
  ⟨rfl, rfl, rfl, by decide⟩

/-- C5: evaluating the code at the failing input
`/ws/schema/table/u_custom_table/1`: the record id is 1 and projection is
on as claimed, but the derived table name is the path marker segment
`table` — `parts[parts.length - 2]` indexed after the trailing segment
was popped — not the claimed `u_custom_table`. -/
theorem c5_table_derivation_divergence :
    clientC5.requestConfig.id = some 1
    ∧ clientC5.requestConfig.includeProjection = true
    ∧ clientC5.requestConfig.table = some "table"
    ∧ ("table" : String) ≠ "u_custom_table" :=
  ⟨rfl, rfl, rfl, by decide⟩

/-! ## C1 and C2: what send() actually does to the state -/

/-- C1 counterexample: after a completed `send()` the pending request
config is not reset to defaults — the method is still `post` (default is
`get`) and the endpoint is still set (default is unset). -/
theorem c1_counterexample :
    (clientC1.send (.ok .vNull)).map (fun o => o.state.requestConfig.method)
      = some "post"
    ∧ (clientC1.send (.ok .vNull)).map (fun o => o.state.requestConfig.endpoint)
      = some (some "/ws/v1/student")
    ∧ ("post" : String) ≠ "get"
    ∧ (some "/ws/v1/student" : Option String) ≠ none :=
  ⟨rfl, rfl, by decide, by decide⟩

/-- C1 (amended): a completed `send()` leaves the builder state — pending
request config and token alike — exactly as it was; in particular no
reset to defaults happens and no token fetch happens. -/
theorem c1_send_state_unchanged (s : PowerSchool)
    (transport : Except TransportError JsValue) (o : SendOutcome)
    (h : s.send transport = some o) : o.state = s := by
  unfold PowerSchool.send at h
  rw [Option.map_eq_some'] at h
  obtain ⟨cfg, hcfg, ho⟩ := h
  rw [← ho]

/-- Witness for C1 at a concrete send. -/
theorem c1_witness : outcomeC1.state = clientC1 :=
  c1_send_state_unchanged clientC1 (.ok .vNull) outcomeC1 (Option.some_get _).symm

/-- C2 counterexample: a builder with no token `send()`s without any
token acquisition — afterwards the token is still absent and the
dispatched request's Authorization header reads `Bearer: undefined`
rather than carrying an acquired token. -/
theorem c2_counterexample :
    clientC2.token = none
    ∧ (clientC2.send (.ok .vNull)).map (fun o => o.state.token) = some none
    ∧ (clientC2.send (.ok .vNull)).map
        (fun o => lookupKey o.dispatched.headers "Authorization")
      = some (some "Bearer: undefined") :=
  ⟨rfl, rfl, rfl⟩

theorem getAxiosRequestConfig_auth_header (s : PowerSchool) (cfg : AxiosRequestConfig)
    (h : s.getAxiosRequestConfig = some cfg) :
    lookupKey cfg.headers "Authorization"
      = some ("Bearer: " ++ s.token.getD "undefined") := by
  unfold PowerSchool.getAxiosRequestConfig at h
  cases he : s.requestConfig.endpoint with
  | none => rw [he] at h; simp at h
  | some e =>
    rw [he] at h
    simp only [Option.some_inj] at h
    rw [← h]
    rfl

/-- C2 (amended): `send()` performs no client-credentials exchange: the
stored token is unchanged by a send, and the dispatched request's
Authorization header is the template rendering of whatever token was
stored before the send (`Bearer: undefined` when none is held); token
acquisition only ever happens through an explicit `retrieveToken` call. -/
theorem c2_send_no_token_fetch (s : PowerSchool)
    (transport : Except TransportError JsValue) (o : SendOutcome)
    (h : s.send transport = some o) :
    o.state.token = s.token
    ∧ lookupKey o.dispatched.headers "Authorization"
      = some ("Bearer: " ++ s.token.getD "undefined") := by
  unfold PowerSchool.send at h
  rw [Option.map_eq_some'] at h
  obtain ⟨cfg, hcfg, ho⟩ := h
  rw [← ho]
  exact ⟨rfl, getAxiosRequestConfig_auth_header s cfg hcfg⟩

/-- Witness for C2 at a concrete send. -/
theorem c2_witness :
    outcomeC2.state.token = clientC2.token
    ∧ lookupKey outcomeC2.dispatched.headers "Authorization"
      = some ("Bearer: " ++ clientC2.token.getD "undefined") :=
  c2_send_no_token_fetch clientC2 (.ok .vNull) outcomeC2 (Option.some_get _).symm

/-! ## C7: behaviour of retrieveToken on failures -/

/-- C7 counterexample: when the token-exchange response body lacks the
`access_token` field, `retrieveToken` does not fail at all (there is no
AuthenticationError anywhere in the source) — it completes successfully,
leaving the token unset. -/
theorem c7_counterexample :
    clientC7.retrieveToken false (.ok { access_token := none }) = .ok clientC7
    ∧ clientC7.tokenSet = false :=
  ⟨rfl, rfl⟩

/-- C7 (amended): for a builder holding no token, a failed transport
exchange propagates as the transport error itself (no dedicated
AuthenticationError type exists) with the token left unset, and an
exchange whose body lacks `access_token` completes successfully while
storing `undefined`, so the token is still unset afterwards; in neither
case is a partial token stored. -/
theorem c7_retrieveToken_failure (s : PowerSchool) (f : Bool) (e : TransportError)
    (h : s.tokenSet = false) :
    s.retrieveToken f (.error e) = .error e
    ∧ s.retrieveToken f (.ok { access_token := none }) = .ok { s with token := none }
    ∧ PowerSchool.tokenSet { s with token := none } = false := by
  have hcond : (s.tokenSet && !f) = false := by rw [h]; rfl
  refine ⟨?_, ?_, ?_⟩
  · unfold PowerSchool.retrieveToken
    rw [hcond]
    rfl
  · unfold PowerSchool.retrieveToken
    rw [hcond]
    rfl
  · rfl

/-- Witness for C7 at a concrete tokenless client. -/
theorem c7_witness :
    clientC7.tokenSet = false
    ∧ (clientC7.retrieveToken true (.error "boom") = .error "boom"
    ∧ clientC7.retrieveToken true (.ok { access_token := none })
        = .ok { clientC7 with token := none }
    ∧ PowerSchool.tokenSet { clientC7 with token := none } = false) :=
  ⟨rfl, c7_retrieveToken_failure clientC7 true "boom" rfl⟩

/-! ## C8: setNamedQuery -/

theorem setEndpoint_endpoint_eq (s : PowerSchool) (e : String) :
    (s.setEndpoint e).requestConfig.endpoint = some (sanitizeEndpoint e) := by
  simp only [PowerSchool.setEndpoint]
  split <;> rfl

theorem sanitizeEndpoint_collapse (p : String) :
    sanitizeEndpoint (String.mk (collapseSlashes p.data)) = sanitizeEndpoint p := by
  unfold sanitizeEndpoint
  rw [show (String.mk (collapseSlashes p.data)).data = collapseSlashes p.data from rfl]
  rw [collapseSlashes_idem]

/-- C8 counterexample: for the prefix-less name `a/` the stored endpoint
is the *normalized* path `/ws/schema/query/a`, not the claimed literal
concatenation `/ws/schema/query/` + name (which would keep the trailing
slash). -/
theorem c8_counterexample :
    (clientC8.setNamedQuery "a/" []).requestConfig.endpoint
      = some "/ws/schema/query/a"
    ∧ ("/ws/schema/query/a" : String) ≠ "/ws/schema/query/" ++ "a/" :=
  ⟨rfl, by decide⟩

/-- C8 (amended): `setNamedQuery(name, body)` stores as endpoint the
slash-normalized form (duplicate slashes collapsed, one trailing slash
stripped) of `name` prefixed with `/ws/schema/query/` — or of `name`
itself when it already starts with the named-query prefix — forces the
method to POST, and, when a non-empty body was supplied, installs that
body as the request data. -/
theorem c8_setNamedQuery_normalized (s : PowerSchool) (name : String) (data : Obj) :
    ((s.setNamedQuery name data).requestConfig.endpoint
      = some (sanitizeEndpoint (if "/ws/schema/query".data.isPrefixOf name.data
          then name else "/ws/schema/query/" ++ name)))
    ∧ (s.setNamedQuery name data).requestConfig.method = "post"
    ∧ (data ≠ [] → (s.setNamedQuery name data).requestConfig.data = data) := by
  cases data with
  | nil =>
    refine ⟨?_, rfl, fun hne => absurd rfl hne⟩
    show (s.setEndpoint (String.mk (collapseSlashes
        (if "/ws/schema/query".data.isPrefixOf name.data then name
         else "/ws/schema/query/" ++ name).data))).requestConfig.endpoint = _
    rw [setEndpoint_endpoint_eq, sanitizeEndpoint_collapse]
  | cons p rest =>
    refine ⟨?_, rfl, fun _ => rfl⟩
    show (s.setEndpoint (String.mk (collapseSlashes
        (if "/ws/schema/query".data.isPrefixOf name.data then name
         else "/ws/schema/query/" ++ name).data))).requestConfig.endpoint = _
    rw [setEndpoint_endpoint_eq, sanitizeEndpoint_collapse]

/-- Witness for C8: a named query with a non-empty body keeps that body
while the method is POST and the endpoint is the normalized prefixed
name. -/
theorem c8_witness :
    (([("param1", JsValue.vStr "one")] : Obj) ≠ [])
    ∧ (clientC8.setNamedQuery "com.archboard.test"
        [("param1", JsValue.vStr "one")]).requestConfig.data
      = [("param1", JsValue.vStr "one")] :=
  ⟨by simp, (c8_setNamedQuery_normalized clientC8 "com.archboard.test"
    [("param1", JsValue.vStr "one")]).2.2 (by simp)⟩

/-! ## C10: a trailing slash parses as the id 0 and the empty table name -/

theorem splitSlash_ne_nil (l : List Char) : splitSlash l ≠ [] := by
  cases l with
  | nil => simp [splitSlash]
  | cons c rest =>
    by_cases h : c = '/'
    · simp [splitSlash, h]
    · cases hs : splitSlash rest with
      | nil => simp [splitSlash, h, hs]
      | cons s ss => simp [splitSlash, h, hs]

theorem splitSlash_append_slash (l : List Char) :
    splitSlash (l ++ ['/']) = splitSlash l ++ [[]] := by
  induction l with
  | nil => rfl
  | cons c rest ih =>
    by_cases h : c = '/'
    · simp [splitSlash, h, ih]
    · cases hs : splitSlash rest with
      | nil => exact absurd hs (splitSlash_ne_nil rest)
      | cons s ss =>
        rw [List.cons_append]
        simp [splitSlash, h, ih, hs]

/-- C10: for every path ending in a slash given to `setEndpoint` on a
builder whose pending id is unset, the empty trailing segment converts
to the number 0, so the recorded id becomes 0; when the normalized path
contains the table marker the table name becomes the empty string; and
the stored endpoint is the sanitized path (trailing slash stripped). -/
theorem c10_trailing_slash_endpoint (s : PowerSchool) (e : String)
    (hslash : e.data.getLast? = some '/') (_hid : s.requestConfig.id = none) :
    (s.setEndpoint e).requestConfig.id = some 0
    ∧ (s.setEndpoint e).requestConfig.endpoint = some (sanitizeEndpoint e)
    ∧ (containsSub (sanitizeEndpoint e).data "/table/".data = true →
        (s.setEndpoint e).requestConfig.table = some "") := by
  have hsplit : e.data = e.data.dropLast ++ ['/'] := eq_dropLast_append hslash
  have hsegs : splitSlash e.data = splitSlash e.data.dropLast ++ [[]] := by
    conv_lhs => rw [hsplit]
    exact splitSlash_append_slash _
  have hlast : (splitSlash e.data).getLast? = some [] := by
    rw [hsegs]
    exact List.getLast?_concat _
  have htail : String.mk ((splitSlash e.data).getLast?.getD []) = "" := by
    rw [hlast]
    rfl
  simp only [PowerSchool.setEndpoint]
  rw [htail]
  have hnum : jsNumber "" = some 0 := rfl
  rw [hnum]
  by_cases hc : containsSub (sanitizeEndpoint e).data "/table/".data = true
  · rw [if_pos hc]
    refine ⟨rfl, rfl, fun _ => ?_⟩
    rfl
  · rw [if_neg hc]
    exact ⟨rfl, rfl, fun hcc => absurd hcc hc⟩

/-- Witness for C10 on the concrete path
`/ws/schema/table/u_custom_table/`. -/
theorem c10_witness :
    "/ws/schema/table/u_custom_table/".data.getLast? = some '/'
    ∧ clientC10.requestConfig.id = none
    ∧ (clientC10.setEndpoint "/ws/schema/table/u_custom_table/").requestConfig.id
        = some 0
    ∧ (clientC10.setEndpoint "/ws/schema/table/u_custom_table/").requestConfig.table
        = some "" :=
  ⟨rfl, rfl,
    (c10_trailing_slash_endpoint clientC10 "/ws/schema/table/u_custom_table/" rfl rfl).1,
    (c10_trailing_slash_endpoint clientC10 "/ws/schema/table/u_custom_table/" rfl rfl).2.2 rfl⟩

end NodePowerSchool
